import Mathlib

/-!
Verification of the event-list generator (src/main.rs, src/list/mod.rs,
src/prelude/mod.rs) against its specification.

Civil timestamps (chrono DateTime<Utc>) are modelled as whole minutes since
1970-01-01 00:00 UTC (every timestamp the program builds is on a whole-minute
grid: `and_hms(18,0,0)`, `and_hms(0,0,0)`, and day-granular Hebrew-date
conversions). The Hebrew-calendar collaborator heca_lib and the sunset
collaborator zmanim are out of scope per the specification and are modelled as
an abstract environment `Env` of black-box functions; the static cycle tables
and the auxiliary generator files that are not part of the given sources are
also carried in `Env`, with their specified behaviour imposed by the wrappers
that use them.
-/

namespace Heca

/-- Day number of a proleptic Gregorian date, days since 1970-01-01
(the standard civil-from-date computation chrono implements). -/
def daysFromCivil (y m d : Int) : Int :=
  let y2 := y - (if m ≤ 2 then 1 else 0)
  let era := (if 0 ≤ y2 then y2 else y2 - 399) / 400
  let yoe := y2 - era * 400
  let doy := (153 * (m + (if 2 < m then -3 else 9)) + 2) / 5 + d - 1
  let doe := yoe * 365 + yoe / 4 - yoe / 100 + doy
  era * 146097 + doe - 719468

/-- Model of chrono `Utc.ymd(y, m, d).and_hms(h, 0, 0)`. -/
def utcYmdHms (y m d h : Int) : Int :=
  1440 * daysFromCivil y m d + 60 * h

/-- The instant 18:00 (evening) of civil day `d`; the grid all generated
events live on. -/
def eveningOf (d : Int) : Int := 1440 * d + 1080

/-- Model of chrono `Duration::num_days()`: whole days of a minute duration,
truncated toward zero. -/
def numDays (t : Int) : Int := t.tdiv 1440

/-- Civil weekday. -/
inductive Weekday
  | Sun | Mon | Tue | Wed | Thu | Fri | Sat
deriving DecidableEq, Repr

/-- Weekday of the civil day an instant falls on (1970-01-01, day 0, was a
Thursday). -/
def weekdayOf (t : Int) : Weekday :=
  let n := (t.fdiv 1440 + 4).emod 7
  if n = 0 then Weekday.Sun
  else if n = 1 then Weekday.Mon
  else if n = 2 then Weekday.Tue
  else if n = 3 then Weekday.Wed
  else if n = 4 then Weekday.Thu
  else if n = 5 then Weekday.Fri
  else Weekday.Sat

/-- heca_lib HebrewMonth. -/
inductive HebrewMonth
  | Tishrei | Cheshvan | Kislev | Teves | Shvat | Adar | Adar1 | Adar2
  | Nissan | Iyar | Sivan | Tammuz | Av | Elul
deriving DecidableEq, Repr

/-- heca_lib HebrewDate: year, month, day-of-month. -/
structure HebrewDate where
  year : Nat
  month : HebrewMonth
  day : Nat
deriving DecidableEq, Repr

/-- heca_lib Location. -/
inductive Location
  | Chul | Israel
deriving DecidableEq, Repr

/-- heca_lib YomTov readings. -/
inductive YomTov
  | RoshHashanah1 | RoshHashanah2 | YomKippur
  | Sukkos1 | Sukkos2 | Sukkos3 | Sukkos4 | Sukkos5 | Sukkos6 | Sukkos7
  | ShminiAtzeres | SimchasTorah
  | Pesach1 | Pesach2 | Pesach3 | Pesach4 | Pesach5 | Pesach6 | Pesach7 | Pesach8
  | Shavuos1 | Shavuos2
deriving DecidableEq, Repr

/-- heca_lib TorahReading. The program only dispatches on the YomTov payloads;
the Parsha, Chol and SpecialParsha payloads of the out-of-scope calendar
library are abstracted as numbers. -/
inductive TorahReading
  | shabbos (p : Nat)
  | yomTov (y : YomTov)
  | chol (c : Nat)
  | specialParsha (s : Nat)
deriving DecidableEq, Repr

/-- heca_lib TorahReadingType (the reading-category filter). -/
inductive TorahReadingType
  | Shabbos | YomTov | Chol | SpecialParsha
deriving DecidableEq, Repr

/-- City configuration (src/algorithms/candle_lighting.rs, not under the given
sources; only its four fields are used by src/list/mod.rs). -/
structure City where
  latitude : Int
  longitude : Int
  timeZone : Int
  candlelightingToSunset : Int
deriving DecidableEq, Repr

/-- A fixed (month, day) pair of a custom-holiday definition. -/
structure DayMonth where
  month : HebrewMonth
  day : Nat
deriving DecidableEq, Repr

/-- Custom holiday definition (args/types): a primary date, optional fallback
dates, and display text. -/
structure CustomHoliday where
  date : DayMonth
  ifNotExists : Option (List DayMonth)
  printable : String
  json : String
deriving DecidableEq, Repr

/-- args/types MinorHoliday toggle. -/
inductive MinorHoliday
  | Omer | Minor
deriving DecidableEq, Repr

/-- args/types RambamChapters. -/
inductive RambamChapters
  | One | Three
deriving DecidableEq, Repr

/-- args/types DailyStudy: the subscribed study-cycle kinds. -/
inductive DailyStudy
  | DafYomi
  | Rambam (chapters : RambamChapters)
  | YerushalmiYomi
deriving DecidableEq, Repr

/-- args/types DailyStudyOutput. The cycle-table references the four
`from_days` lookups produce are abstracted as a name and a number. -/
inductive DailyStudyOutput
  | daf (d : String × Nat)
  | rambamThreeChapters (r : String × Nat)
  | rambamOneChapters (r : String × Nat)
  | yerushalmiYomi (y : String × Nat)
deriving DecidableEq, Repr

/-- args/types Name: the label of an emitted event (src/list/mod.rs version). -/
inductive Name
  | torahReading (t : TorahReading)
  | minorDays (m : Nat)
  | customHoliday (c : CustomHoliday)
  | dailyStudy (d : DailyStudyOutput)
  | israeliHoliday (i : Nat)
  | chabadHoliday (c : Nat)
  | shabbosMevarchim (s : Nat)
deriving DecidableEq, Repr

/-- args/types DayVal (src/list/mod.rs version): one emitted event.
`candle_lighting` is the tri-state field: `none` is NotApplicable,
`some none` is ApplicableUnknown, `some (some t)` is ApplicableKnown(t). -/
structure DayVal where
  day : Int
  name : Name
  candle_lighting : Option (Option Int)
deriving DecidableEq, Repr

/-- args/types Event: one requested event category. -/
inductive Event
  | torahReadingType (t : TorahReadingType)
  | customHoliday (c : CustomHoliday)
  | dailyStudy (d : DailyStudy)
  | minorHoliday (m : MinorHoliday)
  | israeliHolidays
  | chabadHolidays
  | shabbosMevarchim
deriving DecidableEq, Repr

/-- args/types YearType: the kind of year of the request. -/
inductive YearType
  | Hebrew (year : Nat)
  | Gregorian (year : Nat)
deriving DecidableEq, Repr

/-- The abstract environment: the out-of-scope collaborators (heca_lib
calendar functions, zmanim sunset) plus the repository data and lookups whose
files are not part of the given sources (cycle tables, `from_days` page
lookups, and the raw day/label data of the auxiliary generators used by
src/list/mod.rs). -/
structure Env where
  /-- HebrewDate::try_from(DateTime<Utc>): civil instant to Hebrew date. -/
  toHebrew : Int → HebrewDate
  /-- HebrewDate::to_gregorian / Into<DateTime<Utc>>: Hebrew date to civil
  instant. -/
  toCivil : HebrewDate → Int
  /-- HebrewDate::from_ymd(y, m, d).unwrap() converted to a civil instant;
  only called on Tishrei 1 and Elul 29, which the calendar guarantees exist. -/
  fromYmd : Nat → HebrewMonth → Nat → Int
  /-- HebrewYear::get_hebrew_date(month, day): fallible date resolution. -/
  getHebrewDate : Nat → HebrewMonth → Nat → Option HebrewDate
  /-- HebrewYear::get_holidays(location, types): the readings of a year. -/
  getHolidays : Nat → Location → List TorahReadingType → List (TorahReading × HebrewDate)
  /-- The query get_holidays(Chul, [Chol]).find(NineAv).unwrap().day():
  the observed Tisha BAv date of a Hebrew year. -/
  nineAv : Nat → HebrewDate
  /-- The Ord comparison on heca_lib HebrewDate. -/
  hdLT : HebrewDate → HebrewDate → Bool
  /-- HebrewYear::new(y).is_ok(): year validation. -/
  validYear : Nat → Bool
  /-- HebrewYear::is_leap_year. -/
  isLeap : Nat → Bool
  /-- zmanim::get(Zmanim::Sunset, latitude, longitude, date, time_zone). -/
  sunset : Int → Int → Int → Int → Option Int
  /-- GEMARAS_FIRST_CYCLE (src/prelude/constants.rs, not under the given
  sources): ordered tractate/page-count catalog of the first Daf Yomi cycle. -/
  gemarasFirstCycle : List (String × Nat)
  /-- GEMARAS_SECOND_CYCLE, likewise for the second cycle. -/
  gemarasSecondCycle : List (String × Nat)
  /-- RambamChapter::from_days (args/types, not under the given sources). -/
  rambamOneFromDays : Nat → String × Nat
  /-- RambamThreeChapter::from_days (args/types, not under the given
  sources). -/
  rambamThreeFromDays : Nat → String × Nat
  /-- YerushalmiYomi::from_days (args/types, not under the given sources). -/
  yerushalmiFromDays : Nat → String × Nat
  /-- Raw (day, label) data of prelude::get_omer (file not under the given
  sources); the specified NotApplicable lighting is imposed by `omerList`. -/
  omerRaw : Nat → List (Int × Name)
  /-- Raw (day, label) data of algorithms::israeli_holidays::get. -/
  israeliRaw : Nat → Bool → List (Int × Name)
  /-- Raw (day, label) data of algorithms::chabad_holidays::get. -/
  chabadRaw : Nat → List (Int × Name)
  /-- Raw (day, label) data of algorithms::shabbos_mevarchim::get. -/
  shabbosMevarchimRaw : Nat → List (Int × Name)
  /-- Raw (day, label) data of prelude::constants::get_minor_holidays
  (the src/list/mod.rs pipeline version, not under the given sources). -/
  minorRaw : Nat → List (Int × Name)

/-- Modelled from the spec: `Daf::from_days` and the GEMARAS tables live in
src/args/types.rs and src/prelude/constants.rs, which are not among the given
source files. Per the spec a Cycle Table is an ordered cumulative-page
catalog, and `from_days` maps a day offset through it to a tractate and page
reference. -/
def dafFromDays : Nat → List (String × Nat) → String × Nat
  | n, [] => ("", n)
  | n, (nm, pages) :: rest =>
    if n < pages then (nm, n) else dafFromDays (n - pages) rest

/-- Wrapping subtraction on u64 values (Rust release-mode `a - b`). -/
def sub64 (a b : Nat) : Nat := (a + (2 ^ 64 - b % 2 ^ 64)) % 2 ^ 64

/-- Utc.ymd(1975, 6, 23).and_hms(18, 0, 0): epoch of the second Daf Yomi
cycle. -/
def firstDayOfSecondCycle : Int := utcYmdHms 1975 6 23 18

/-- Utc.ymd(1923, 9, 10).and_hms(18, 0, 0): epoch of the first Daf Yomi
cycle. -/
def firstDayOfFirstCycle : Int := utcYmdHms 1923 9 10 18

/-- Utc.ymd(1984, 4, 27).and_hms(18, 0, 0): the Rambam cycle epoch. -/
def rambamFirstDay : Int := utcYmdHms 1984 4 27 18

/-- Utc.ymd(1980, 2, 1).and_hms(18, 0, 0): the Yerushalmi Yomi epoch. -/
def firstDayOfYerushalmiYomi : Int := utcYmdHms 1980 2 1 18

/-- The body of the per-day, per-event loop of GetDayVal::get_day_val
(src/list/mod.rs lines 158-297): the study-cycle entry (if any) the
calculator emits for subscribed cycle `event` on the day of instant `i`.
Under each `epoch ≤ i` guard the day difference is nonnegative, so Rust
i64 `%` and the unsigned conversion commute; the model converts first. -/
def dailyStudyStep (e : Env) (event : DailyStudy) (i : Int) : Option DayVal :=
  match event with
  | DailyStudy.DafYomi =>
    if firstDayOfSecondCycle ≤ i then
      some { day := i,
             name := Name.dailyStudy (DailyStudyOutput.daf
               (dafFromDays ((numDays (i - firstDayOfSecondCycle)).toNat % 2711)
                 e.gemarasSecondCycle)),
             candle_lighting := none }
    else if firstDayOfFirstCycle ≤ i then
      some { day := i,
             candle_lighting := none,
             name := Name.dailyStudy (DailyStudyOutput.daf
               (dafFromDays ((numDays (i - firstDayOfFirstCycle)).toNat % 2702)
                 e.gemarasFirstCycle)) }
    else none
  | DailyStudy.Rambam chapters =>
    if rambamFirstDay ≤ i then
      match chapters with
      | RambamChapters.One =>
        some { candle_lighting := none, day := i,
               name := Name.dailyStudy (DailyStudyOutput.rambamOneChapters
                 (e.rambamOneFromDays ((numDays (i - rambamFirstDay)).toNat % 1017))) }
      | RambamChapters.Three =>
        some { candle_lighting := none, day := i,
               name := Name.dailyStudy (DailyStudyOutput.rambamThreeChapters
                 (e.rambamThreeFromDays ((numDays (i - rambamFirstDay)).toNat % (1017 / 3)))) }
    else none
  | DailyStudy.YerushalmiYomi =>
    if firstDayOfYerushalmiYomi ≤ i then
      let curHebrewDay := e.toHebrew i
      let firstHebrewDayOfYerushalmiYomi := e.toHebrew firstDayOfYerushalmiYomi
      let amntYears := sub64 curHebrewDay.year firstHebrewDayOfYerushalmiYomi.year
      let diffDays := numDays (i - firstDayOfYerushalmiYomi)
      let thisYearsTishaBeav := e.nineAv curHebrewDay.year
      if ¬(curHebrewDay.month = HebrewMonth.Tishrei ∧ curHebrewDay.day = 10) ∧
          ¬(curHebrewDay = thisYearsTishaBeav) then
        let amntYomKippurThisYear : Nat :=
          if curHebrewDay.month = HebrewMonth.Tishrei ∧ curHebrewDay.day < 10 then 0 else 1
        let amntTishaBeavThisYear : Nat :=
          if e.hdLT curHebrewDay thisYearsTishaBeav then 0 else 1
        let amntYomKippur :=
          if amntYears = 0 then 0
          else if amntYears = 1 then amntYomKippurThisYear
          else amntYears - 1 + amntYomKippurThisYear
        let amntTishaBeav :=
          if amntYears = 0 then amntTishaBeavThisYear
          else if amntYears = 1 then amntTishaBeavThisYear + 1
          else amntYears + amntTishaBeavThisYear
        if 0 < diffDays then
          some { day := i,
                 name := Name.dailyStudy (DailyStudyOutput.yerushalmiYomi
                   (e.yerushalmiFromDays
                     (sub64 (sub64 diffDays.toNat amntTishaBeav) amntYomKippur
                       % (1563 - 5 - 4)))),
                 candle_lighting := none }
        else none
      else none
    else none

/-- The instants the while loop of get_day_val visits: `first`,
`first + 1 day`, ... while `i ≤ last`. -/
def scanDays (first last : Int) : List Int :=
  (List.range ((last - first).fdiv 1440 + 1).toNat).map fun k =>
    first + 1440 * (k : Int)

/-- GetDayVal::get_day_val (src/list/mod.rs lines 140-303): scan every civil
day from Tishrei 1 of `startYear` to Elul 29 of `lastYear` and collect the
per-day entries of every subscribed cycle. -/
def get_day_val (e : Env) (self : List DailyStudy) (startYear lastYear : Nat) :
    List DayVal :=
  if self.isEmpty then []
  else
    let firstDay := e.fromYmd startYear HebrewMonth.Tishrei 1
    let lastDay := e.fromYmd lastYear HebrewMonth.Elul 29
    (scanDays firstDay lastDay).flatMap fun i =>
      self.filterMap fun event => dailyStudyStep e event i

/-- The per-reading classification closure of get_list (src/list/mod.rs lines
426-517): converts one holiday of the year into a DayVal, classifying
candle-lighting eligibility and, when a city is configured and lighting is on
time, querying sunset. The mutable flags of the source become rebindings. -/
def classifyReading (e : Env) (location : Location) (city : Option City)
    (x : TorahReading × HebrewDate) : DayVal :=
  let day : Int := e.toCivil x.2
  let lightOnTime := false
  let isShabbos := false
  let (lightOnTime, isShabbos) :=
    match x.1 with
    | TorahReading.shabbos _ => (true, true)
    | _ => (lightOnTime, isShabbos)
  let (lightOnTime, isShabbos) :=
    if weekdayOf day = Weekday.Fri then (true, true) else (lightOnTime, isShabbos)
  let isYomTov := false
  let (isYomTov, lightOnTime) :=
    match x.1 with
    | TorahReading.yomTov yt =>
      match yt with
      | YomTov.RoshHashanah2 => (true, lightOnTime)
      | YomTov.RoshHashanah1 | YomTov.YomKippur | YomTov.Sukkos1
      | YomTov.ShminiAtzeres | YomTov.Pesach1 | YomTov.Pesach7
      | YomTov.Shavuos1 =>
        (true, if weekdayOf day = Weekday.Sat then false else true)
      | yt =>
        match location with
        | Location.Chul =>
          (if yt = YomTov.Sukkos2 ∨ yt = YomTov.SimchasTorah ∨ yt = YomTov.Pesach2
              ∨ yt = YomTov.Pesach8 ∨ yt = YomTov.Shavuos2
            then true else false, lightOnTime)
        | Location.Israel => (false, lightOnTime)
    | _ => (isYomTov, lightOnTime)
  if isShabbos ∨ isYomTov then
    let candleLighting : Option Int :=
      match city with
      | some city =>
        let date : Int := day.fdiv 1440
        if lightOnTime then
          match e.sunset city.latitude city.longitude date city.timeZone with
          | some time => some (time - (city.candlelightingToSunset - 1))
          | none => none
        else none
      | none => none
    { day := day, name := Name.torahReading x.1, candle_lighting := some candleLighting }
  else
    { day := day, name := Name.torahReading x.1, candle_lighting := none }

/-- Modelled from the spec: prelude/get_omer.rs (the pipeline version used by
src/list/mod.rs line 521) is not among the given source files. Per spec
section 4.1 step 3 each of its entries carries NotApplicable candle lighting;
its days and labels are the collaborator data `Env.omerRaw`. -/
def omerList (e : Env) (year : Nat) : List DayVal :=
  (e.omerRaw year).map fun p =>
    { day := p.1, name := p.2, candle_lighting := none }

/-- Modelled from the spec: algorithms/israeli_holidays.rs is not among the
given source files. Per spec section 4.1 step 5 each of its entries carries
NotApplicable candle lighting. -/
def israeliList (e : Env) (year : Nat) (exactDays : Bool) : List DayVal :=
  (e.israeliRaw year exactDays).map fun p =>
    { day := p.1, name := p.2, candle_lighting := none }

/-- Modelled from the spec: algorithms/chabad_holidays.rs is not among the
given source files. Per spec section 4.1 step 5 each of its entries carries
NotApplicable candle lighting. -/
def chabadList (e : Env) (year : Nat) : List DayVal :=
  (e.chabadRaw year).map fun p =>
    { day := p.1, name := p.2, candle_lighting := none }

/-- Modelled from the spec: algorithms/shabbos_mevarchim.rs is not among the
given source files. Per spec section 4.1 step 5 each of its entries carries
NotApplicable candle lighting. -/
def shabbosMevarchimList (e : Env) (year : Nat) : List DayVal :=
  (e.shabbosMevarchimRaw year).map fun p =>
    { day := p.1, name := p.2, candle_lighting := none }

/-- Modelled from the spec: prelude/constants.rs (the get_minor_holidays used
by src/list/mod.rs line 533) is not among the given source files. Per spec
section 4.1 step 4 each of its entries carries NotApplicable candle
lighting. -/
def minorList (e : Env) (year : Nat) : List DayVal :=
  (e.minorRaw year).map fun p =>
    { day := p.1, name := p.2, candle_lighting := none }

/-- One iteration of the parallel per-year map of get_list (src/list/mod.rs
lines 419-557): expand one religious year. -/
def getListYear (e : Env) (location : Location) (events : List Event)
    (mainEvents : List TorahReadingType) (customEvents : List CustomHoliday)
    (exactDays : Bool) (city : Option City) (year : Nat) : List DayVal :=
  let ret := (e.getHolidays year location mainEvents).map
    (classifyReading e location city)
  let ret := ret ++
    (if (Event.minorHoliday MinorHoliday.Omer) ∈ events then omerList e year else [])
  let ret := ret ++
    (if Event.israeliHolidays ∈ events then israeliList e year exactDays else [])
  let ret := ret ++
    (if Event.chabadHolidays ∈ events then chabadList e year else [])
  let ret := ret ++
    (if Event.shabbosMevarchim ∈ events then shabbosMevarchimList e year else [])
  let ret := ret ++
    (if (Event.minorHoliday MinorHoliday.Minor) ∈ events then minorList e year else [])
  let ret := ret ++ customEvents.flatMap (fun x =>
    match e.getHebrewDate year x.date.month x.date.day with
    | some day =>
      [{ name := Name.customHoliday x, day := e.toCivil day, candle_lighting := none }]
    | none =>
      match x.ifNotExists with
      | some notExists =>
        notExists.filterMap fun dayMonth =>
          match e.getHebrewDate year dayMonth.month dayMonth.day with
          | some day =>
            some { name := Name.customHoliday x, day := e.toCivil day,
                   candle_lighting := none }
          | none => none
      | none => [])
  ret

/-- The religious years the per-year loop of get_list expands: `x + year` for
`x` in `0..(lastYear - year)` (src/list/mod.rs lines 412, 417-421). -/
def getListExpandedYears (year lastYear : Nat) : List Nat :=
  (List.range (lastYear - year)).map fun x => x + year

/-- get_list (src/list/mod.rs lines 402-565): validate the two endpoint
years, then expand every year of the half-open span and flatten in year
order (rayon collect_into_vec keeps the index order). -/
def get_list (e : Env) (year lastYear : Nat) (location : Location)
    (events : List Event) (mainEvents : List TorahReadingType)
    (customEvents : List CustomHoliday) (exactDays : Bool)
    (city : Option City) : Except Unit (List DayVal) :=
  let amntYears := lastYear - year
  if e.validYear year && e.validYear (year + amntYears) then
    Except.ok ((getListExpandedYears year lastYear).flatMap
      (getListYear e location events mainEvents customEvents exactDays city))
  else
    Except.error ()

/-- The TorahReadingType selections of the request (src/list/mod.rs lines
308-318). -/
def mainEventsOf (events : List Event) : List TorahReadingType :=
  events.filterMap fun x =>
    match x with
    | Event.torahReadingType trr => some trr
    | _ => none

/-- The custom-holiday definitions of the request (src/list/mod.rs lines
320-330). -/
def customEventsOf (events : List Event) : List CustomHoliday :=
  events.filterMap fun x =>
    match x with
    | Event.customHoliday c => some c
    | _ => none

/-- The subscribed study cycles of the request (src/list/mod.rs lines
331-341). -/
def dailyStudyEventsOf (events : List Event) : List DailyStudy :=
  events.filterMap fun x =>
    match x with
    | Event.dailyStudy d => some d
    | _ => none

/-- The final sort (src/list/mod.rs line 395): par_sort_unstable_by on the
instant is a comparison sort, i.e. some permutation sorted by the day;
mergeSort is its functional model. -/
def sortByDay (l : List DayVal) : List DayVal :=
  l.mergeSort fun a b => decide (a.day ≤ b.day)

/-- ListArgs::run without the printing step (src/list/mod.rs lines 307-399):
derive the three selection lists, build the event list for a Hebrew-year or
Gregorian-year request, and sort it unless sorting is disabled. -/
def listRun (e : Env) (location : Location) (events : List Event)
    (exactDays : Bool) (city : Option City) (noSort : Bool)
    (yearType : YearType) (amntYears : Nat) : Except Unit (List DayVal) :=
  let mainEvents := mainEventsOf events
  let customEvents := customEventsOf events
  let dailyStudyEvents := dailyStudyEventsOf events
  let result : Except Unit (List DayVal) :=
    match yearType with
    | YearType.Hebrew year =>
      if e.validYear year && e.validYear (year + amntYears) then
        match get_list e year (year + amntYears) location events mainEvents
            customEvents exactDays city with
        | Except.ok part1 =>
          Except.ok (part1 ++
            get_day_val e dailyStudyEvents year (year + amntYears - 1))
        | Except.error er => Except.error er
      else Except.error ()
    | YearType.Gregorian year =>
      let origJan1 := utcYmdHms ((year : Int) - 1) 12 31 18
      let lastJan1 := utcYmdHms ((year : Int) + (amntYears : Int) + 1) 1 1 18
      let thatYear := (e.toHebrew origJan1).year
      let lastYear := (e.toHebrew lastJan1).year
      match get_list e thatYear lastYear location events mainEvents
          customEvents exactDays city with
      | Except.ok part1 =>
        let part1 := part1 ++ get_day_val e dailyStudyEvents thatYear lastYear
        let part2 := (part1.filter fun x =>
            decide (utcYmdHms (year : Int) 1 1 0 < x.day)).filter fun x =>
          decide (x.day < utcYmdHms ((year : Int) + (amntYears : Int)) 1 1 0)
        Except.ok part2
      | Except.error er => Except.error er
  match result with
  | Except.ok l => Except.ok (if noSort then l else sortByDay l)
  | Except.error er => Except.error er

/-- The merged pre-filter event list of the Gregorian arm of ListArgs::run:
the expansion of the religious-year span derived from Dec-31-evening of
(year - 1) and Jan-1-evening of (year + amntYears + 1), concatenated with the
study-cycle scan over the same span. -/
def gregorianMerged (e : Env) (location : Location) (events : List Event)
    (exactDays : Bool) (city : Option City) (year amntYears : Nat) :
    List DayVal :=
  let thatYear := (e.toHebrew (utcYmdHms ((year : Int) - 1) 12 31 18)).year
  let lastYear :=
    (e.toHebrew (utcYmdHms ((year : Int) + (amntYears : Int) + 1) 1 1 18)).year
  ((getListExpandedYears thatYear lastYear).flatMap
      (getListYear e location events (mainEventsOf events) (customEventsOf events)
        exactDays city)) ++
    get_day_val e (dailyStudyEventsOf events) thatYear lastYear

namespace Main

/-- args/types Name as used by src/main.rs (this older pipeline labels events
with either a reading or a custom printable/json name and has no
candle-lighting field). -/
inductive Name
  | torahReading (t : Heca.TorahReading)
  | customName (printable json : String)
deriving DecidableEq, Repr

/-- DayVal as used by src/main.rs: an instant and a label. -/
structure DayVal where
  day : Int
  name : Name
deriving DecidableEq, Repr

/-- get_minor_holidays (src/main.rs lines 509-627). Every date resolution the
source performs with get_hebrew_date(..).unwrap() is modelled as an Option
bind, so that the panic path of a failed resolution is the `none` result; the
Adar1 dates are only requested in leap years, guarded by is_leap_year. -/
def get_minor_holidays (e : Env) (year : Nat) : Option (List DayVal) := do
  let d1 <- e.getHebrewDate year HebrewMonth.Tishrei 9
  let d2 <- e.getHebrewDate year HebrewMonth.Tishrei 14
  let d3 <- e.getHebrewDate year HebrewMonth.Nissan 14
  let d4 <- e.getHebrewDate year HebrewMonth.Iyar 14
  let d5 <- e.getHebrewDate year HebrewMonth.Iyar 18
  let d6 <- e.getHebrewDate year HebrewMonth.Sivan 5
  let d7 <- e.getHebrewDate year HebrewMonth.Elul 29
  let d8 <- e.getHebrewDate year HebrewMonth.Shvat 15
  let d9 <- e.getHebrewDate year HebrewMonth.Av 15
  let holidays : List DayVal := [
    { day := e.toCivil d1, name := Name.customName "Erev Yom Kippur" "ErevYomKippur" },
    { day := e.toCivil d2, name := Name.customName "Erev Sukkos" "ErevSukkos" },
    { day := e.toCivil d3, name := Name.customName "Erev Pesach" "ErevPesach" },
    { day := e.toCivil d4, name := Name.customName "Pesach Sheni" "PesachSheni" },
    { day := e.toCivil d5, name := Name.customName "Lag Baomer" "LagBaomer" },
    { day := e.toCivil d6, name := Name.customName "Erev Shavuos" "ErevShavuos" },
    { day := e.toCivil d7, name := Name.customName "Erev Rosh Hashana" "ErevRoshHashanah" },
    { day := e.toCivil d8, name := Name.customName "15th of Shvat" "Shvat15" },
    { day := e.toCivil d9, name := Name.customName "15th of Av" "Av15" }]
  if e.isLeap year then
    let p1 <- e.getHebrewDate year HebrewMonth.Adar1 14
    let p2 <- e.getHebrewDate year HebrewMonth.Adar1 15
    some (holidays ++ [
      { day := e.toCivil p1, name := Name.customName "Purim Kattan" "PurimKattan" },
      { day := e.toCivil p2,
        name := Name.customName "Shushan Purim Kattan" "ShushanPurimKattan" }])
  else
    some holidays

/-- get_omer (src/main.rs lines 630-980): the 49 Omer-count entries at fixed
day offsets after the 15th of Nissan. The single unwrap on the resolution of
Nissan 15 is modelled as the Option bind; Duration::days(k) is 1440 * k
minutes. -/
def get_omer (e : Env) (year : Nat) : Option (List DayVal) := do
  let pesach <- e.getHebrewDate year HebrewMonth.Nissan 15
  let firstDayOfPesach := e.toCivil pesach
  some [
    { day := firstDayOfPesach + 1440 * 1,
      name := Name.customName "1st day of the Omer" "Omer1" },
    { day := firstDayOfPesach + 1440 * 2,
      name := Name.customName "2nd day of the Omer" "Omer2" },
    { day := firstDayOfPesach + 1440 * 3,
      name := Name.customName "3rd day of the Omer" "Omer3" },
    { day := firstDayOfPesach + 1440 * 4,
      name := Name.customName "4th day of the Omer" "Omer4" },
    { day := firstDayOfPesach + 1440 * 5,
      name := Name.customName "5th day of the Omer" "Omer5" },
    { day := firstDayOfPesach + 1440 * 6,
      name := Name.customName "6th day of the Omer" "Omer6" },
    { day := firstDayOfPesach + 1440 * 7,
      name := Name.customName "7th day of the Omer" "Omer7" },
    { day := firstDayOfPesach + 1440 * 8,
      name := Name.customName "8th day of the Omer" "Omer8" },
    { day := firstDayOfPesach + 1440 * 9,
      name := Name.customName "9th day of the Omer" "Omer9" },
    { day := firstDayOfPesach + 1440 * 10,
      name := Name.customName "10th day of the Omer" "Omer10" },
    { day := firstDayOfPesach + 1440 * 11,
      name := Name.customName "11th day of the Omer" "Omer11" },
    { day := firstDayOfPesach + 1440 * 12,
      name := Name.customName "12th day of the Omer" "Omer12" },
    { day := firstDayOfPesach + 1440 * 13,
      name := Name.customName "13th day of the Omer" "Omer13" },
    { day := firstDayOfPesach + 1440 * 14,
      name := Name.customName "14th day of the Omer" "Omer14" },
    { day := firstDayOfPesach + 1440 * 15,
      name := Name.customName "15th day of the Omer" "Omer15" },
    { day := firstDayOfPesach + 1440 * 16,
      name := Name.customName "16th day of the Omer" "Omer16" },
    { day := firstDayOfPesach + 1440 * 17,
      name := Name.customName "17th day of the Omer" "Omer17" },
    { day := firstDayOfPesach + 1440 * 18,
      name := Name.customName "18th day of the Omer" "Omer18" },
    { day := firstDayOfPesach + 1440 * 19,
      name := Name.customName "19th day of the Omer" "Omer19" },
    { day := firstDayOfPesach + 1440 * 20,
      name := Name.customName "20th day of the Omer" "Omer20" },
    { day := firstDayOfPesach + 1440 * 21,
      name := Name.customName "21st day of the Omer" "Omer21" },
    { day := firstDayOfPesach + 1440 * 22,
      name := Name.customName "22nd day of the Omer" "Omer22" },
    { day := firstDayOfPesach + 1440 * 23,
      name := Name.customName "23rd day of the Omer" "Omer23" },
    { day := firstDayOfPesach + 1440 * 24,
      name := Name.customName "24th day of the Omer" "Omer24" },
    { day := firstDayOfPesach + 1440 * 25,
      name := Name.customName "25th day of the Omer" "Omer25" },
    { day := firstDayOfPesach + 1440 * 26,
      name := Name.customName "26th day of the Omer" "Omer26" },
    { day := firstDayOfPesach + 1440 * 27,
      name := Name.customName "27th day of the Omer" "Omer27" },
    { day := firstDayOfPesach + 1440 * 28,
      name := Name.customName "28th day of the Omer" "Omer28" },
    { day := firstDayOfPesach + 1440 * 29,
      name := Name.customName "29th day of the Omer" "Omer29" },
    { day := firstDayOfPesach + 1440 * 30,
      name := Name.customName "30th day of the Omer" "Omer30" },
    { day := firstDayOfPesach + 1440 * 31,
      name := Name.customName "31st day of the Omer" "Omer31" },
    { day := firstDayOfPesach + 1440 * 32,
      name := Name.customName "32nd day of the Omer" "Omer32" },
    { day := firstDayOfPesach + 1440 * 33,
      name := Name.customName "33rd day of the Omer" "Omer33" },
    { day := firstDayOfPesach + 1440 * 34,
      name := Name.customName "34th day of the Omer" "Omer34" },
    { day := firstDayOfPesach + 1440 * 35,
      name := Name.customName "35th day of the Omer" "Omer35" },
    { day := firstDayOfPesach + 1440 * 36,
      name := Name.customName "36th day of the Omer" "Omer36" },
    { day := firstDayOfPesach + 1440 * 37,
      name := Name.customName "37th day of the Omer" "Omer37" },
    { day := firstDayOfPesach + 1440 * 38,
      name := Name.customName "38th day of the Omer" "Omer38" },
    { day := firstDayOfPesach + 1440 * 39,
      name := Name.customName "39th day of the Omer" "Omer39" },
    { day := firstDayOfPesach + 1440 * 40,
      name := Name.customName "40th day of the Omer" "Omer40" },
    { day := firstDayOfPesach + 1440 * 41,
      name := Name.customName "41st day of the Omer" "Omer41" },
    { day := firstDayOfPesach + 1440 * 42,
      name := Name.customName "42nd day of the Omer" "Omer42" },
    { day := firstDayOfPesach + 1440 * 43,
      name := Name.customName "43rd day of the Omer" "Omer43" },
    { day := firstDayOfPesach + 1440 * 44,
      name := Name.customName "44th day of the Omer" "Omer44" },
    { day := firstDayOfPesach + 1440 * 45,
      name := Name.customName "45th day of the Omer" "Omer45" },
    { day := firstDayOfPesach + 1440 * 46,
      name := Name.customName "46th day of the Omer" "Omer46" },
    { day := firstDayOfPesach + 1440 * 47,
      name := Name.customName "47th day of the Omer" "Omer47" },
    { day := firstDayOfPesach + 1440 * 48,
      name := Name.customName "48th day of the Omer" "Omer48" },
    { day := firstDayOfPesach + 1440 * 49,
      name := Name.customName "49th day of the Omer" "Omer49" }]

end Main

/-! Spec-side vocabulary: the quantities named by the specification text,
written exactly as the spec words them, to be compared with the code model. -/

/-- Spec: years_elapsed = hebrew_year(i) − hebrew_year(epoch), for the day
of instant `eveningOf d`. -/
def yearsElapsed (e : Env) (d : Int) : Nat :=
  (e.toHebrew (eveningOf d)).year - (e.toHebrew firstDayOfYerushalmiYomi).year

/-- Spec: yk_passed_this_year = 0 if the day falls in Tishrei before the
10th, else 1. -/
def ykPassedThisYear (e : Env) (d : Int) : Nat :=
  if (e.toHebrew (eveningOf d)).month = HebrewMonth.Tishrei ∧
      (e.toHebrew (eveningOf d)).day < 10 then 0 else 1

/-- Spec: tb_passed_this_year = 1 if the day is on or after the Tisha BAv of
its year, else 0 (the comparison is the calendar collaborator order). -/
def tbPassedThisYear (e : Env) (d : Int) : Nat :=
  if e.hdLT (e.toHebrew (eveningOf d))
      (e.nineAv (e.toHebrew (eveningOf d)).year) then 0 else 1

/-- Spec: total_yk_skipped is 0 if years_elapsed = 0, yk_passed_this_year if
years_elapsed = 1, else years_elapsed − 1 + yk_passed_this_year. -/
def totalYkSkipped (e : Env) (d : Int) : Nat :=
  if yearsElapsed e d = 0 then 0
  else if yearsElapsed e d = 1 then ykPassedThisYear e d
  else yearsElapsed e d - 1 + ykPassedThisYear e d

/-- Spec: total_tb_skipped is tb_passed_this_year if years_elapsed = 0,
tb_passed_this_year + 1 if years_elapsed = 1, else
years_elapsed + tb_passed_this_year. -/
def totalTbSkipped (e : Env) (d : Int) : Nat :=
  if yearsElapsed e d = 0 then tbPassedThisYear e d
  else if yearsElapsed e d = 1 then tbPassedThisYear e d + 1
  else yearsElapsed e d + tbPassedThisYear e d

/-- The English ordinal suffix, as used by the Omer labels. -/
def ordinalSuffix (n : Nat) : String :=
  if n % 100 = 11 ∨ n % 100 = 12 ∨ n % 100 = 13 then "th"
  else if n % 10 = 1 then "st"
  else if n % 10 = 2 then "nd"
  else if n % 10 = 3 then "rd"
  else "th"

/-- The Omer sequence the spec describes: 49 entries on consecutive civil
days, the k-th (k = 1..49) on the day k days after the 1st day of Pesach,
labeled with the English ordinal. -/
def omerSpec (firstDayOfPesach : Int) : List Main.DayVal :=
  (List.range 49).map fun k =>
    { day := firstDayOfPesach + 1440 * (((k + 1 : Nat)) : Int),
      name := Main.Name.customName
        (toString (k + 1) ++ ordinalSuffix (k + 1) ++ " day of the Omer")
        ("Omer" ++ toString (k + 1)) }

/-! Concrete instantiations of the abstract collaborator environment, used to
evaluate the theorems on explicit inputs. -/

/-- A trivial collaborator environment. -/
def baseEnv : Env where
  toHebrew := fun _ => { year := 1, month := HebrewMonth.Tishrei, day := 1 }
  toCivil := fun _ => 0
  fromYmd := fun _ _ _ => 0
  getHebrewDate := fun y m d => some { year := y, month := m, day := d }
  getHolidays := fun _ _ _ => []
  nineAv := fun y => { year := y, month := HebrewMonth.Av, day := 9 }
  hdLT := fun _ _ => true
  validYear := fun _ => true
  isLeap := fun _ => false
  sunset := fun _ _ _ _ => none
  gemarasFirstCycle := []
  gemarasSecondCycle := []
  rambamOneFromDays := fun n => ("Rambam", n)
  rambamThreeFromDays := fun n => ("Rambam3", n)
  yerushalmiFromDays := fun n => ("Yerushalmi", n)
  omerRaw := fun _ => []
  israeliRaw := fun _ _ => []
  chabadRaw := fun _ => []
  shabbosMevarchimRaw := fun _ => []
  minorRaw := fun _ => []

/-- A calendar around the Yerushalmi Yomi epoch (civil day 3683): day 3684 is
Shvat 15 of Hebrew year 5740, the epoch day is Shvat 14 of 5740, and the
study scan covers civil days 3684 and 3685. -/
def toyYer : Env :=
  { baseEnv with
    toHebrew := fun t =>
      if eveningOf 3684 ≤ t then { year := 5740, month := HebrewMonth.Shvat, day := 15 }
      else { year := 5740, month := HebrewMonth.Shvat, day := 14 }
    fromYmd := fun _ m _ =>
      if m = HebrewMonth.Tishrei then eveningOf 3684 else eveningOf 3685 }

/-- A calendar whose every year has a single Chol reading on Tishrei 1,
placed on the evening of civil day equal to the year number. -/
def toyRun : Env :=
  { baseEnv with
    getHolidays := fun y _ _ =>
      [(TorahReading.chol 0, { year := y, month := HebrewMonth.Tishrei, day := 1 })]
    toCivil := fun hd => eveningOf (hd.year : Int) }

/-- A calendar for the Gregorian request of year 2000: the covering span is
Hebrew years 1..2, and the single reading of each year lands exactly at
Jan-1-2000 00:00, the lower window boundary. -/
def toyGregBoundary : Env :=
  { baseEnv with
    toHebrew := fun t =>
      { year := if t ≤ utcYmdHms 2000 1 1 0 then 1 else 2,
        month := HebrewMonth.Tishrei, day := 1 }
    getHolidays := fun y _ _ =>
      [(TorahReading.chol 0, { year := y, month := HebrewMonth.Tishrei, day := 1 })]
    toCivil := fun _ => utcYmdHms 2000 1 1 0 }

/-- Like `toyGregBoundary`, but the reading lands mid-window
(2000-06-01 18:00), so it survives the filter. -/
def toyGregWitness : Env :=
  { baseEnv with
    toHebrew := fun t =>
      { year := if t ≤ utcYmdHms 2000 1 1 0 then 1 else 2,
        month := HebrewMonth.Tishrei, day := 1 }
    getHolidays := fun y _ _ =>
      [(TorahReading.chol 0, { year := y, month := HebrewMonth.Tishrei, day := 1 })]
    toCivil := fun _ => utcYmdHms 2000 6 1 18 }

/-- A collaborator with a sunset result for every query, every reading on the
evening of civil day 0 (a Thursday). -/
def toySun : Env :=
  { baseEnv with
    sunset := fun _ _ _ _ => some 1000
    toCivil := fun _ => eveningOf 0 }

/-- A concrete city configuration. -/
def toyCity : City :=
  { latitude := 1, longitude := 2, timeZone := 3, candlelightingToSunset := 18 }

/-- The event `toyRun` produces for Hebrew year 1 (a Friday, hence eligible
with unknown lighting). -/
def toyRunVal1 : DayVal :=
  { day := eveningOf 1, name := Name.torahReading (TorahReading.chol 0),
    candle_lighting := some none }

/-- The event `toyRun` produces for Hebrew year 2 (a Saturday Chol reading,
not eligible). -/
def toyRunVal2 : DayVal :=
  { day := eveningOf 2, name := Name.torahReading (TorahReading.chol 0),
    candle_lighting := none }

/-- The event `toyGregBoundary` produces: exactly at Jan-1-2000 00:00. -/
def toyGregBVal : DayVal :=
  { day := utcYmdHms 2000 1 1 0, name := Name.torahReading (TorahReading.chol 0),
    candle_lighting := none }

/-- The event `toyGregWitness` produces: at 2000-06-01 18:00. -/
def toyGregWVal : DayVal :=
  { day := utcYmdHms 2000 6 1 18, name := Name.torahReading (TorahReading.chol 0),
    candle_lighting := none }

/-! Helper lemmas. -/

theorem sub64_eq_sub (a b : Nat) (hba : b ≤ a) (ha : a < 2 ^ 64) :
    sub64 a b = a - b := by
  have hp : (2 : Nat) ^ 64 = 18446744073709551616 := by norm_num
  unfold sub64
  rw [hp] at ha ⊢
  have hb : b % 18446744073709551616 = b := Nat.mod_eq_of_lt (by omega)
  rw [hb]
  have h2 : a + (18446744073709551616 - b) = (a - b) + 18446744073709551616 := by
    omega
  rw [h2, Nat.add_mod_right]
  exact Nat.mod_eq_of_lt (by omega)

theorem eveningOf_le_iff (a b : Int) : eveningOf a ≤ eveningOf b ↔ a ≤ b := by
  unfold eveningOf
  constructor
  · intro h; omega
  · intro h; omega

theorem numDays_eveningOf_sub (a b : Int) :
    numDays (eveningOf a - eveningOf b) = a - b := by
  unfold numDays eveningOf
  have h : 1440 * a + 1080 - (1440 * b + 1080) = 1440 * (a - b) := by ring
  rw [h]
  exact Int.mul_tdiv_cancel_left (a - b) (by norm_num)

theorem yerushalmiEpoch_day : firstDayOfYerushalmiYomi = eveningOf 3683 := by decide

theorem dafSecondEpoch_day : firstDayOfSecondCycle = eveningOf 1999 := by decide

theorem dafFirstEpoch_day : firstDayOfFirstCycle = eveningOf (-16915) := by decide

theorem dailyStudyStep_candle (e : Env) (event : DailyStudy) (i : Int)
    (v : DayVal) (h : dailyStudyStep e event i = some v) :
    v.candle_lighting = none := by
  cases event with
  | DafYomi =>
    simp only [dailyStudyStep] at h
    split at h
    · rw [← Option.some.inj h]
    · split at h
      · rw [← Option.some.inj h]
      · exact Option.noConfusion h
  | Rambam chapters =>
    cases chapters <;> simp only [dailyStudyStep] at h <;> split at h
    · rw [← Option.some.inj h]
    · exact Option.noConfusion h
    · rw [← Option.some.inj h]
    · exact Option.noConfusion h
  | YerushalmiYomi =>
    simp only [dailyStudyStep] at h
    split at h
    · split at h
      · split at h
        · rw [← Option.some.inj h]
        · exact Option.noConfusion h
      · exact Option.noConfusion h
    · exact Option.noConfusion h

theorem mem_get_day_val (e : Env) (events : List DailyStudy) (sy ly : Nat)
    (v : DayVal) (hv : v ∈ get_day_val e events sy ly) :
    ∃ i event, event ∈ events ∧ dailyStudyStep e event i = some v := by
  unfold get_day_val at hv
  split at hv
  · exact absurd hv (by simp)
  · simp only [List.mem_flatMap, List.mem_filterMap] at hv
    obtain ⟨i, _, event, hev, hstep⟩ := hv
    exact ⟨i, event, hev, hstep⟩

theorem sub64_sub64_eq (a b c : Nat) (h : b + c ≤ a) (ha : a < 2 ^ 64) :
    sub64 (sub64 a b) c = a - b - c := by
  have h1 : b ≤ a := le_trans (Nat.le_add_right b c) h
  rw [sub64_eq_sub a b h1 ha]
  have h2 : c ≤ a - b := by omega
  have h3 : a - b < 2 ^ 64 := lt_of_le_of_lt (Nat.sub_le a b) ha
  rw [sub64_eq_sub (a - b) c h2 h3]

/-- Claim C1: for every civil day on or after the Yerushalmi Yomi epoch
(evening of civil day 3683, that is 1980-02-01) that is neither the 10th of
Tishrei nor the resolved Tisha BAv of its Hebrew year, the calculator
computes total_yk_skipped and total_tb_skipped by the case formulas over
years_elapsed, and emits an entry exactly when days_since_epoch > 0, with
offset (days_since_epoch - total_tb_skipped - total_yk_skipped) modulo
(1563 - 5 - 4). The two bound hypotheses state that the u64 arithmetic of
the source does not wrap, which holds for every real calendar. -/
theorem yerushalmi_offset_formula (e : Env) (d : Int)
    (hEpoch : firstDayOfYerushalmiYomi ≤ eveningOf d)
    (hYK : ¬((e.toHebrew (eveningOf d)).month = HebrewMonth.Tishrei ∧
      (e.toHebrew (eveningOf d)).day = 10))
    (hTB : e.toHebrew (eveningOf d) ≠ e.nineAv (e.toHebrew (eveningOf d)).year)
    (hYr : (e.toHebrew firstDayOfYerushalmiYomi).year ≤ (e.toHebrew (eveningOf d)).year)
    (hYrBound : (e.toHebrew (eveningOf d)).year < 2 ^ 64)
    (hNoUnderflow : totalTbSkipped e d + totalYkSkipped e d ≤ (d - 3683).toNat)
    (hDse : (d - 3683).toNat < 2 ^ 64) :
    dailyStudyStep e DailyStudy.YerushalmiYomi (eveningOf d) =
      if 0 < d - 3683 then
        some { day := eveningOf d,
               name := Name.dailyStudy (DailyStudyOutput.yerushalmiYomi
                 (e.yerushalmiFromDays
                   (((d - 3683).toNat - totalTbSkipped e d - totalYkSkipped e d)
                     % (1563 - 5 - 4)))),
               candle_lighting := none }
      else none := by
  have hnum : numDays (eveningOf d - firstDayOfYerushalmiYomi) = d - 3683 := by
    rw [yerushalmiEpoch_day]
    exact numDays_eveningOf_sub d 3683
  simp only [dailyStudyStep]
  rw [if_pos hEpoch, if_pos (And.intro hYK hTB), hnum]
  simp only [totalTbSkipped, totalYkSkipped, ykPassedThisYear, tbPassedThisYear,
    yearsElapsed] at hNoUnderflow ⊢
  rw [sub64_eq_sub _ _ hYr hYrBound]
  rw [sub64_sub64_eq _ _ _ hNoUnderflow hDse]

/-- Witness for C1: on the concrete calendar `toyYer` the day after the
epoch gets offset 1. -/
theorem yerushalmi_offset_formula_witness :
    dailyStudyStep toyYer DailyStudy.YerushalmiYomi (eveningOf 3684) =
      some { day := eveningOf 3684,
             name := Name.dailyStudy (DailyStudyOutput.yerushalmiYomi ("Yerushalmi", 1)),
             candle_lighting := none } :=
  (yerushalmi_offset_formula toyYer 3684 (by decide) (by decide) (by decide)
    (by decide) (by decide) (by decide) (by decide)).trans (by decide)

/-- Claim C5: the Yerushalmi Yomi calculator never emits an entry on the
10th of Tishrei or on the resolved Tisha BAv date of the entry year, for any
day in the scanned range and any requested years. -/
theorem yerushalmi_skips_days (e : Env) (events : List DailyStudy)
    (startYear lastYear : Nat) (v : DayVal) (r : String × Nat)
    (hv : v ∈ get_day_val e events startYear lastYear)
    (hname : v.name = Name.dailyStudy (DailyStudyOutput.yerushalmiYomi r)) :
    ¬((e.toHebrew v.day).month = HebrewMonth.Tishrei ∧
        (e.toHebrew v.day).day = 10) ∧
      e.toHebrew v.day ≠ e.nineAv (e.toHebrew v.day).year := by
  obtain ⟨i, event, _, hstep⟩ := mem_get_day_val e events startYear lastYear v hv
  cases event with
  | DafYomi =>
    simp only [dailyStudyStep] at hstep
    split at hstep
    · rw [← Option.some.inj hstep] at hname
      exact absurd hname (by simp)
    · split at hstep
      · rw [← Option.some.inj hstep] at hname
        exact absurd hname (by simp)
      · exact Option.noConfusion hstep
  | Rambam chapters =>
    cases chapters <;> simp only [dailyStudyStep] at hstep <;> split at hstep
    · rw [← Option.some.inj hstep] at hname
      exact absurd hname (by simp)
    · exact Option.noConfusion hstep
    · rw [← Option.some.inj hstep] at hname
      exact absurd hname (by simp)
    · exact Option.noConfusion hstep
  | YerushalmiYomi =>
    simp only [dailyStudyStep] at hstep
    split at hstep
    · split at hstep
      next hguard =>
        split at hstep
        · rw [← Option.some.inj hstep]
          exact hguard
        · exact Option.noConfusion hstep
      next => exact Option.noConfusion hstep
    · exact Option.noConfusion hstep

/-- Witness for C5: the first entry the concrete calendar `toyYer` emits is
on neither skip day. -/
theorem yerushalmi_skips_days_witness :
    ¬((toyYer.toHebrew (eveningOf 3684)).month = HebrewMonth.Tishrei ∧
        (toyYer.toHebrew (eveningOf 3684)).day = 10) ∧
      toyYer.toHebrew (eveningOf 3684) ≠
        toyYer.nineAv (toyYer.toHebrew (eveningOf 3684)).year :=
  yerushalmi_skips_days toyYer [DailyStudy.YerushalmiYomi] 5740 5740
    { day := eveningOf 3684,
      name := Name.dailyStudy (DailyStudyOutput.yerushalmiYomi ("Yerushalmi", 1)),
      candle_lighting := none } ("Yerushalmi", 1) (by decide) rfl

/-- Claim C3: for every civil day (the evening of civil day d), the Daf Yomi
calculator emits no entry when the day precedes the first-cycle epoch (civil
day -16915, that is 1923-09-10); otherwise it selects the second cycle when
the day is on or after the second-cycle epoch (civil day 1999, that is
1975-06-23; the second cycle takes precedence) and the first cycle otherwise,
and it emits an entry whose offset equals the whole days elapsed since the
selected epoch modulo that cycle length (2711 days for the second cycle,
2702 for the first), mapped through the corresponding cycle table. -/
theorem daf_yomi_cycle_selection :
    firstDayOfSecondCycle = eveningOf 1999 ∧
      firstDayOfFirstCycle = eveningOf (-16915) ∧
      ∀ (e : Env) (d : Int),
        dailyStudyStep e DailyStudy.DafYomi (eveningOf d) =
          if 1999 ≤ d then
            some { day := eveningOf d,
                   name := Name.dailyStudy (DailyStudyOutput.daf
                     (dafFromDays ((d - 1999).toNat % 2711) e.gemarasSecondCycle)),
                   candle_lighting := none }
          else if -16915 ≤ d then
            some { day := eveningOf d,
                   candle_lighting := none,
                   name := Name.dailyStudy (DailyStudyOutput.daf
                     (dafFromDays ((d + 16915).toNat % 2702) e.gemarasFirstCycle)) }
          else none := by
  refine ⟨by decide, by decide, fun e d => ?_⟩
  simp only [dailyStudyStep]
  rw [dafSecondEpoch_day, dafFirstEpoch_day]
  by_cases h2 : (1999 : Int) ≤ d
  · rw [if_pos ((eveningOf_le_iff 1999 d).mpr h2), if_pos h2, numDays_eveningOf_sub]
  · rw [if_neg (fun hc => h2 ((eveningOf_le_iff 1999 d).mp hc)), if_neg h2]
    by_cases h1 : (-16915 : Int) ≤ d
    · rw [if_pos ((eveningOf_le_iff (-16915) d).mpr h1), if_pos h1,
        numDays_eveningOf_sub]
      have hadd : d - (-16915) = d + 16915 := by ring
      rw [hadd]
    · rw [if_neg (fun hc => h1 ((eveningOf_le_iff (-16915) d).mp hc)), if_neg h1]

/-- Claim C9: every event the study-cycle calculator emits, for every day,
year range and subscribed cycle, carries candle_lighting NotApplicable
(encoded as none); no study-cycle entry is ApplicableUnknown or
ApplicableKnown. -/
theorem study_cycle_candle_none (e : Env) (events : List DailyStudy)
    (startYear lastYear : Nat) (v : DayVal)
    (hv : v ∈ get_day_val e events startYear lastYear) :
    v.candle_lighting = none := by
  obtain ⟨i, event, _, hstep⟩ := mem_get_day_val e events startYear lastYear v hv
  exact dailyStudyStep_candle e event i v hstep

/-- Witness for C9 on a concrete calendar: a concrete Yerushalmi entry. -/
theorem study_cycle_candle_none_witness :
    ({ day := eveningOf 3684,
       name := Name.dailyStudy (DailyStudyOutput.yerushalmiYomi ("Yerushalmi", 1)),
       candle_lighting := none } : DayVal).candle_lighting = none :=
  study_cycle_candle_none toyYer [DailyStudy.YerushalmiYomi] 5740 5740
    { day := eveningOf 3684,
      name := Name.dailyStudy (DailyStudyOutput.yerushalmiYomi ("Yerushalmi", 1)),
      candle_lighting := none }
    (by decide)

/-- Claim C10: a 2nd-day-of-Rosh-Hashanah reading whose civil weekday is not
Friday is classified eligible but with light_on_time never set, so even with
a configured city and a successful sunset lookup its candle_lighting is
ApplicableUnknown (some none), never ApplicableKnown. -/
theorem rosh_hashanah2_unknown_lighting (e : Env) (location : Location)
    (city : City) (hd : HebrewDate) (t : Int)
    (hfri : weekdayOf (e.toCivil hd) ≠ Weekday.Fri)
    (hsun : e.sunset city.latitude city.longitude ((e.toCivil hd).fdiv 1440)
        city.timeZone = some t) :
    classifyReading e location (some city)
        (TorahReading.yomTov YomTov.RoshHashanah2, hd) =
      { day := e.toCivil hd,
        name := Name.torahReading (TorahReading.yomTov YomTov.RoshHashanah2),
        candle_lighting := some none } := by
  simp only [classifyReading]
  rw [if_neg hfri]
  simp

/-- Witness for C10 on a concrete environment with a successful sunset
lookup and a non-Friday reading day. -/
theorem rosh_hashanah2_unknown_lighting_witness :
    classifyReading toySun Location.Chul (some toyCity)
        (TorahReading.yomTov YomTov.RoshHashanah2,
          { year := 1, month := HebrewMonth.Tishrei, day := 2 }) =
      { day := toySun.toCivil { year := 1, month := HebrewMonth.Tishrei, day := 2 },
        name := Name.torahReading (TorahReading.yomTov YomTov.RoshHashanah2),
        candle_lighting := some none } :=
  rosh_hashanah2_unknown_lighting toySun Location.Chul toyCity
    { year := 1, month := HebrewMonth.Tishrei, day := 2 } 1000
    (by decide) (by decide)

/-- Claim C8: when the Omer generator runs for a year (the resolution of
Nissan 15 succeeding, as the calendar guarantees), it yields exactly 49
entries, on 49 consecutive civil days starting the day after the 15th of
Nissan (the 1st day of Pesach), labeled with the English ordinals
"1st day of the Omer" through "49th day of the Omer", in ascending date
order. -/
theorem omer_forty_nine (e : Env) (year : Nat) (hd : HebrewDate)
    (h : e.getHebrewDate year HebrewMonth.Nissan 15 = some hd) :
    Main.get_omer e year = some (omerSpec (e.toCivil hd)) ∧
      (omerSpec (e.toCivil hd)).length = 49 ∧
      List.Chain' (fun a b => b.day = a.day + 1440) (omerSpec (e.toCivil hd)) := by
  refine ⟨?_, ?_, ?_⟩
  · unfold Main.get_omer
    rw [h]
    rfl
  · simp [omerSpec]
  · unfold omerSpec
    rw [List.chain'_map, show (49 : Nat) = Nat.succ 48 from rfl,
      List.chain'_range_succ]
    intro m _
    show e.toCivil hd + 1440 * ((m.succ + 1 : Nat) : Int) =
      e.toCivil hd + 1440 * ((m + 1 : Nat) : Int) + 1440
    push_cast
    ring

/-- Witness for C8 on the concrete calendar `baseEnv` for year 5740. -/
theorem omer_forty_nine_witness :
    Main.get_omer baseEnv 5740 =
        some (omerSpec (baseEnv.toCivil
          { year := 5740, month := HebrewMonth.Nissan, day := 15 })) ∧
      (omerSpec (baseEnv.toCivil
        { year := 5740, month := HebrewMonth.Nissan, day := 15 })).length = 49 ∧
      List.Chain' (fun a b => b.day = a.day + 1440)
        (omerSpec (baseEnv.toCivil
          { year := 5740, month := HebrewMonth.Nissan, day := 15 })) :=
  omer_forty_nine baseEnv 5740
    { year := 5740, month := HebrewMonth.Nissan, day := 15 } rfl

/-- Claim C6: given the calendar collaborator contract for a validated year
(the nine fixed catalog dates resolve in every year, the two Adar1 dates
resolve in leap years, and Nissan 15 resolves), the minor-holiday and Omer
generators always return a result: the panic path of their date-resolution
unwraps (the `none` result of the model) is never taken. -/
theorem minor_omer_no_panic (e : Env) (year : Nat)
    (h1 : (e.getHebrewDate year HebrewMonth.Tishrei 9).isSome = true)
    (h2 : (e.getHebrewDate year HebrewMonth.Tishrei 14).isSome = true)
    (h3 : (e.getHebrewDate year HebrewMonth.Nissan 14).isSome = true)
    (h4 : (e.getHebrewDate year HebrewMonth.Iyar 14).isSome = true)
    (h5 : (e.getHebrewDate year HebrewMonth.Iyar 18).isSome = true)
    (h6 : (e.getHebrewDate year HebrewMonth.Sivan 5).isSome = true)
    (h7 : (e.getHebrewDate year HebrewMonth.Elul 29).isSome = true)
    (h8 : (e.getHebrewDate year HebrewMonth.Shvat 15).isSome = true)
    (h9 : (e.getHebrewDate year HebrewMonth.Av 15).isSome = true)
    (hleap : e.isLeap year = true →
      (e.getHebrewDate year HebrewMonth.Adar1 14).isSome = true ∧
        (e.getHebrewDate year HebrewMonth.Adar1 15).isSome = true)
    (h10 : (e.getHebrewDate year HebrewMonth.Nissan 15).isSome = true) :
    (Main.get_minor_holidays e year).isSome = true ∧
      (Main.get_omer e year).isSome = true := by
  constructor
  · obtain ⟨d1, e1⟩ := Option.isSome_iff_exists.mp h1
    obtain ⟨d2, e2⟩ := Option.isSome_iff_exists.mp h2
    obtain ⟨d3, e3⟩ := Option.isSome_iff_exists.mp h3
    obtain ⟨d4, e4⟩ := Option.isSome_iff_exists.mp h4
    obtain ⟨d5, e5⟩ := Option.isSome_iff_exists.mp h5
    obtain ⟨d6, e6⟩ := Option.isSome_iff_exists.mp h6
    obtain ⟨d7, e7⟩ := Option.isSome_iff_exists.mp h7
    obtain ⟨d8, e8⟩ := Option.isSome_iff_exists.mp h8
    obtain ⟨d9, e9⟩ := Option.isSome_iff_exists.mp h9
    by_cases hl : e.isLeap year = true
    · obtain ⟨hA, hB⟩ := hleap hl
      obtain ⟨p1, eA⟩ := Option.isSome_iff_exists.mp hA
      obtain ⟨p2, eB⟩ := Option.isSome_iff_exists.mp hB
      simp [Main.get_minor_holidays, e1, e2, e3, e4, e5, e6, e7, e8, e9, hl, eA, eB]
    · simp [Main.get_minor_holidays, e1, e2, e3, e4, e5, e6, e7, e8, e9, hl]
  · obtain ⟨p, ep⟩ := Option.isSome_iff_exists.mp h10
    unfold Main.get_omer
    rw [ep]
    rfl

/-- Witness for C6 on the concrete calendar `baseEnv` for year 5740. -/
theorem minor_omer_no_panic_witness :
    (Main.get_minor_holidays baseEnv 5740).isSome = true ∧
      (Main.get_omer baseEnv 5740).isSome = true :=
  minor_omer_no_panic baseEnv 5740 (by decide) (by decide) (by decide)
    (by decide) (by decide) (by decide) (by decide) (by decide) (by decide)
    (by decide) (by decide)

theorem mem_sortByDay (v : DayVal) (l : List DayVal) :
    v ∈ sortByDay l ↔ v ∈ l := List.mem_mergeSort

theorem mem_ifList {v : DayVal} {c : Prop} [Decidable c] {l : List DayVal}
    (hv : v ∈ if c then l else []) : v ∈ l := by
  split at hv
  · exact hv
  · exact absurd hv (by simp)

theorem mem_rawList_candle (l : List (Int × Name)) (v : DayVal)
    (hv : v ∈ l.map fun p => { day := p.1, name := p.2, candle_lighting := none }) :
    v.candle_lighting = none := by
  simp only [List.mem_map] at hv
  obtain ⟨p, _, rfl⟩ := hv
  rfl

theorem classifyReading_city_none (e : Env) (location : Location)
    (x : TorahReading × HebrewDate) :
    (classifyReading e location none x).candle_lighting = none ∨
      (classifyReading e location none x).candle_lighting = some none := by
  unfold classifyReading
  by_cases hf : weekdayOf (e.toCivil x.2) = Weekday.Fri <;>
    simp only [hf, if_true, if_false, ite_true, ite_false] <;>
    repeat' split <;>
    simp_all

theorem listRun_mem_cases (e : Env) (location : Location) (events : List Event)
    (exactDays : Bool) (city : Option City) (noSort : Bool) (yearType : YearType)
    (amntYears : Nat) (l : List DayVal)
    (h : listRun e location events exactDays city noSort yearType amntYears = Except.ok l)
    (v : DayVal) (hv : v ∈ l) :
    (∃ year, v ∈ getListYear e location events (mainEventsOf events)
        (customEventsOf events) exactDays city year) ∨
      (∃ sy ly, v ∈ get_day_val e (dailyStudyEventsOf events) sy ly) := by
  simp only [listRun, get_list] at h
  split at h
  next part1 hns =>
    have hvp : v ∈ part1 := by
      rw [← Except.ok.inj h] at hv
      split at hv
      · exact hv
      · exact (mem_sortByDay v part1).mp hv
    split at hns
    next x year =>
      split at hns
      next hvalid =>
        split at hns
        next part2 heq2 =>
          obtain rfl := (Except.ok.inj hns).symm
          split at heq2
          next hvalid2 =>
            obtain rfl := (Except.ok.inj heq2).symm
            rcases List.mem_append.mp hvp with hin | hin
            · obtain ⟨y, _, hy⟩ := List.mem_flatMap.mp hin
              exact Or.inl ⟨y, hy⟩
            · exact Or.inr ⟨year, year + amntYears - 1, hin⟩
          next => exact Except.noConfusion heq2
        next er heq2 => exact Except.noConfusion hns
      next => exact Except.noConfusion hns
    next x year =>
      split at hns
      next part2 heq2 =>
        obtain rfl := (Except.ok.inj hns).symm
        split at heq2
        next hvalid2 =>
          obtain rfl := (Except.ok.inj heq2).symm
          have hv3 := (List.mem_filter.mp ((List.mem_filter.mp hvp).1)).1
          rcases List.mem_append.mp hv3 with hin | hin
          · obtain ⟨y, _, hy⟩ := List.mem_flatMap.mp hin
            exact Or.inl ⟨y, hy⟩
          · exact Or.inr ⟨_, _, hin⟩
        next => exact Except.noConfusion heq2
      next er heq2 => exact Except.noConfusion hns
  next er hns => exact Except.noConfusion h



theorem get_day_val_candle (e : Env) (events : List DailyStudy) (sy ly : Nat)
    (v : DayVal) (hv : v ∈ get_day_val e events sy ly) :
    v.candle_lighting = none := by
  obtain ⟨i, event, _, hstep⟩ := mem_get_day_val e events sy ly v hv
  exact dailyStudyStep_candle e event i v hstep

theorem getListYear_candle (e : Env) (location : Location) (events : List Event)
    (mainEvents : List TorahReadingType) (customEvents : List CustomHoliday)
    (exactDays : Bool) (year : Nat) (v : DayVal)
    (hv : v ∈ getListYear e location events mainEvents customEvents exactDays none year) :
    v.candle_lighting = none ∨ v.candle_lighting = some none := by
  unfold getListYear at hv
  simp only [List.mem_append] at hv
  rcases hv with ((((((hv | hv) | hv) | hv) | hv) | hv) | hv)
  · simp only [List.mem_map] at hv
    obtain ⟨x, _, rfl⟩ := hv
    exact classifyReading_city_none e location x
  · exact Or.inl (mem_rawList_candle (e.omerRaw year) v (mem_ifList hv))
  · exact Or.inl (mem_rawList_candle (e.israeliRaw year exactDays) v (mem_ifList hv))
  · exact Or.inl (mem_rawList_candle (e.chabadRaw year) v (mem_ifList hv))
  · exact Or.inl (mem_rawList_candle (e.shabbosMevarchimRaw year) v (mem_ifList hv))
  · exact Or.inl (mem_rawList_candle (e.minorRaw year) v (mem_ifList hv))
  · simp only [List.mem_flatMap] at hv
    obtain ⟨x, _, hvx⟩ := hv
    cases hgd : e.getHebrewDate year x.date.month x.date.day with
    | some day =>
      simp only [hgd] at hvx
      simp only [List.mem_singleton] at hvx
      rw [hvx]
      exact Or.inl rfl
    | none =>
      simp only [hgd] at hvx
      cases hne : x.ifNotExists with
      | some notExists =>
        simp only [hne] at hvx
        simp only [List.mem_filterMap] at hvx
        obtain ⟨dm, _, hsome⟩ := hvx
        split at hsome
        · rw [← Option.some.inj hsome]
          exact Or.inl rfl
        · exact Option.noConfusion hsome
      | none =>
        simp only [hne] at hvx
        exact absurd hvx (by simp)

/-- Claim C7: when no city is configured, every event the run produces has
candle_lighting NotApplicable (none) or ApplicableUnknown (some none); no
event carries ApplicableKnown. -/
theorem no_city_no_known_lighting (e : Env) (location : Location)
    (events : List Event) (exactDays : Bool) (noSort : Bool)
    (yearType : YearType) (amntYears : Nat) (l : List DayVal)
    (h : listRun e location events exactDays none noSort yearType amntYears = Except.ok l)
    (v : DayVal) (hv : v ∈ l) :
    v.candle_lighting = none ∨ v.candle_lighting = some none := by
  rcases listRun_mem_cases e location events exactDays none noSort yearType
      amntYears l h v hv with ⟨year, hy⟩ | ⟨sy, ly, hy⟩
  · exact getListYear_candle e location events (mainEventsOf events)
      (customEventsOf events) exactDays year v hy
  · exact Or.inl (get_day_val_candle e (dailyStudyEventsOf events) sy ly v hy)

/-- Witness for C7 on the concrete calendar `toyRun` with no city. -/
theorem no_city_no_known_lighting_witness :
    toyRunVal1.candle_lighting = none ∨ toyRunVal1.candle_lighting = some none :=
  no_city_no_known_lighting toyRun Location.Chul [] false true (YearType.Hebrew 1) 1
    [toyRunVal1] rfl toyRunVal1 (by decide)

/-- Claim C2 (amended): for a Hebrew-year request of year Y with span N the
run expands exactly the religious years Y..Y+N-1 (year Y+N is validated but
not expanded, so its events do not appear), and invokes the study-cycle
calculator over the span (Y, Y+N-1); the output is a permutation of the
concatenation of the two parts. -/
theorem hebrew_run_spans (e : Env) (location : Location) (events : List Event)
    (exactDays : Bool) (city : Option City) (noSort : Bool) (Y N : Nat)
    (l : List DayVal)
    (h : listRun e location events exactDays city noSort (YearType.Hebrew Y) N = Except.ok l) :
    l.Perm ((((List.range N).map fun x => x + Y).flatMap
        (getListYear e location events (mainEventsOf events) (customEventsOf events)
          exactDays city)) ++
      get_day_val e (dailyStudyEventsOf events) Y (Y + N - 1)) ∧
      Y + N ∉ ((List.range N).map fun x => x + Y) := by
  constructor
  · simp only [listRun, get_list] at h
    split at h
    next part1 hns =>
      obtain rfl := (Except.ok.inj h).symm
      split at hns
      next hvalid =>
        split at hns
        next part2 heq2 =>
          obtain rfl := (Except.ok.inj hns).symm
          split at heq2
          next hvalid2 =>
            obtain rfl := (Except.ok.inj heq2).symm
            have hyears : getListExpandedYears Y (Y + N) =
                (List.range N).map fun x => x + Y := by
              unfold getListExpandedYears
              rw [Nat.add_sub_cancel_left]
            rw [hyears]
            split
            · exact List.Perm.refl _
            · exact List.mergeSort_perm _ _
          next => exact Except.noConfusion heq2
        next er heq2 => exact Except.noConfusion hns
      next => exact Except.noConfusion hns
    next er hns => exact Except.noConfusion h
  · simp only [List.mem_map, List.mem_range, not_exists]
    intro x
    omega

/-- Witness for the amended C2 on the concrete calendar `toyRun`. -/
theorem hebrew_run_spans_witness :
    List.Perm [toyRunVal1]
        ((((List.range 1).map fun x => x + 1).flatMap
          (getListYear toyRun Location.Chul [] (mainEventsOf []) (customEventsOf [])
            false none)) ++
        get_day_val toyRun (dailyStudyEventsOf []) 1 (1 + 1 - 1)) ∧
      1 + 1 ∉ ((List.range 1).map fun x => x + 1) :=
  hebrew_run_spans toyRun Location.Chul [] false none true 1 1 [toyRunVal1] rfl

/-- Counterexample to C2 as stated: for the Hebrew request Y = 1, N = 1 on
the calendar `toyRun`, the run output holds only the year-1 event, while
expanding year Y+N = 2 would produce `toyRunVal2`, which is absent: the
expander is not invoked for year Y+N. -/
theorem expander_drops_last_year :
    listRun toyRun Location.Chul [] false none true (YearType.Hebrew 1) 1 =
        Except.ok [toyRunVal1] ∧
      getListYear toyRun Location.Chul [] (mainEventsOf []) (customEventsOf [])
          false none 2 = [toyRunVal2] ∧
      toyRunVal2 ∉ [toyRunVal1] :=
  ⟨rfl, rfl, by decide⟩

/-- Claim C4 (amended): for a Gregorian request of year Y spanning N, the
run derives the religious span from the religious years containing
Dec-31-evening of Y-1 and Jan-1-evening of Y+N+1, expands and merges that
span with the study-cycle scan, and retains exactly the merged events whose
instant lies strictly between Jan-1 00:00 of Y and Jan-1 00:00 of Y+N (the
code drops an event at exactly the lower boundary, which the original claim
said is kept). -/
theorem gregorian_filter_window (e : Env) (location : Location)
    (events : List Event) (exactDays : Bool) (city : Option City)
    (noSort : Bool) (Y N : Nat) (l : List DayVal)
    (h : listRun e location events exactDays city noSort (YearType.Gregorian Y) N = Except.ok l)
    (v : DayVal) :
    v ∈ l ↔ (v ∈ gregorianMerged e location events exactDays city Y N ∧
      utcYmdHms (Y : Int) 1 1 0 < v.day ∧
      v.day < utcYmdHms ((Y : Int) + (N : Int)) 1 1 0) := by
  simp only [listRun, get_list] at h
  split at h
  next part1 hns =>
    obtain rfl := (Except.ok.inj h).symm
    split at hns
    next part2 heq2 =>
      obtain rfl := (Except.ok.inj hns).symm
      split at heq2
      next hvalid2 =>
        obtain rfl := (Except.ok.inj heq2).symm
        have hmem : ∀ L : List DayVal,
            (v ∈ if noSort = true then L else sortByDay L) ↔ v ∈ L := by
          intro L
          split
          · exact Iff.rfl
          · exact mem_sortByDay v L
        rw [hmem, List.mem_filter, List.mem_filter]
        unfold gregorianMerged
        simp only [decide_eq_true_eq]
        constructor
        · rintro ⟨⟨hm, h1⟩, h2⟩
          exact ⟨hm, h1, h2⟩
        · rintro ⟨hm, h1, h2⟩
          exact ⟨⟨hm, h1⟩, h2⟩
      next => exact Except.noConfusion heq2
    next er heq2 => exact Except.noConfusion hns
  next er hns => exact Except.noConfusion h

/-- Counterexample to C4 as stated: on the calendar `toyGregBoundary` the
Gregorian request for year 2000 has `toyGregBVal` in its merged pre-filter
list, with instant exactly Jan-1-2000 00:00, inside the claimed half-open
window; yet the run output is empty, because the filter is strict at the
lower boundary. -/
theorem gregorian_boundary_dropped :
    listRun toyGregBoundary Location.Chul [] false none true
        (YearType.Gregorian 2000) 1 = Except.ok [] ∧
      toyGregBVal ∈ gregorianMerged toyGregBoundary Location.Chul [] false none 2000 1 ∧
      toyGregBVal.day = utcYmdHms 2000 1 1 0 ∧
      utcYmdHms 2000 1 1 0 ≤ toyGregBVal.day ∧
      toyGregBVal.day < utcYmdHms (2000 + 1) 1 1 0 :=
  ⟨rfl, by decide, by decide, by decide, by decide⟩

/-- Witness for the amended C4 on the concrete calendar `toyGregWitness`. -/
theorem gregorian_filter_window_witness :
    (toyGregWVal ∈ [toyGregWVal]) ↔
      (toyGregWVal ∈ gregorianMerged toyGregWitness Location.Chul [] false none 2000 1 ∧
        utcYmdHms ((2000 : Nat) : Int) 1 1 0 < toyGregWVal.day ∧
        toyGregWVal.day < utcYmdHms (((2000 : Nat) : Int) + ((1 : Nat) : Int)) 1 1 0) :=
  gregorian_filter_window toyGregWitness Location.Chul [] false none true 2000 1
    [toyGregWVal] rfl toyGregWVal

end Heca
